import Mathlib

/-!
Verification development for the Ontology repository's rule-based reasoning
engine.  The repository ships the frontend (TypeScript), the API client
(`reasoningApi`, `axiomApi`, `constraintApi` in `src/unnamed/part_001`),
the UI handlers (`src/unnamed/part_004`) and the documentation
(`src/docs/reasoning-engine-guide.md`, `src/ontology/axioms/README.md`);
the backend services (`backend/app/services/reasoning_service.py`,
`axiom_service.py`, `constraint_service.py`) are not part of the sources.
Definitions for the backend pipeline below are therefore modelled from the
spec (sections 3, 4.1, 4.2, 4.3, 4.4, 4.5) and from the repository's
documentation; the frontend handler `handleClearInferred` is embedded
directly from `src/unnamed/part_004`.
-/

namespace Ontology

/-- Scalar property values stored on graph nodes and edges
(spec section 3, Node / Edge property maps). -/
inductive Value where
  | s (v : String)
  | i (v : Int)
  | b (v : Bool)
deriving DecidableEq, Repr

/-- A property-graph node: store-assigned id, labels, property map
(spec section 3, Node). -/
structure Node where
  id : Nat
  labels : List String
  props : List (String × Value)
deriving DecidableEq, Repr

/-- A typed directed relationship (spec section 3, Edge). -/
structure Edge where
  id : Nat
  src : Nat
  tgt : Nat
  typ : String
  props : List (String × Value)
deriving DecidableEq, Repr

/-- The property-graph store owned by the external graph engine
(spec section 2, Graph Store Adapter). -/
structure Store where
  nodes : List Node
  edges : List Edge
  nextId : Nat
deriving DecidableEq, Repr

/-- One candidate binding: logical variable name to bound node id
(spec section 3, Candidate). -/
abbrev Candidate := List (String × Nat)

/-- Look up the node id bound to a variable in a candidate binding. -/
def bindOf (c : Candidate) (v : String) : Nat :=
  ((c.find? (fun p => p.1 == v)).map (fun p => p.2)).getD 0

/-- Error raised when the underlying store query fails
(spec section 4.1, error conditions; section 7, QueryError). -/
structure QueryError where
  ruleId : String
  cause : String
deriving DecidableEq, Repr

/-- Endpoint reference inside an action template: either a node bound by
the candidate, or the idx-th node created by the same action. -/
inductive Ref where
  | node (v : String)
  | created (idx : Nat)
deriving DecidableEq, Repr

/-- Specification of one node to create (spec section 3, actionTemplate). -/
structure NodeSpec where
  labels : List String
  props : List (String × Value)
deriving DecidableEq, Repr

/-- Specification of one edge to create (spec section 3, actionTemplate). -/
structure EdgeSpec where
  src : Ref
  tgt : Ref
  typ : String
  props : List (String × Value)
deriving DecidableEq, Repr

/-- The materialization action instantiated from one candidate. -/
structure Action where
  nodes : List NodeSpec
  edges : List EdgeSpec
deriving DecidableEq, Repr

/-- Modelled from the spec: a reasoning rule (spec section 3, Rule;
the concrete rule catalog lives in the absent
`backend/app/services/reasoning_service.py`).  `matchQuery` is the broad
pattern query (stage 1), `filters` the additional condition predicates
(stages 2..n), `inverseCheck` the dedup predicate detecting an already
existing target fact, and `action` the actionTemplate. -/
structure Rule where
  id : String
  name : String
  category : String
  matchQuery : Store → Except QueryError (List Candidate)
  filters : List (Store → Candidate → Bool)
  inverseCheck : Store → Candidate → Bool
  action : Candidate → Action

/-- Trace pipeline stage kinds, as declared for `ReasoningStep.type` in
`src/unnamed/part_001` lines 466 to 476 and `src/unnamed/part_004`. -/
inductive StageKind where
  | MATCH
  | FILTER
  | CHECK
  | INFERENCE
  | RESULT
deriving DecidableEq, Repr

/-- One ordered trace step (spec section 3, TraceStep; `ReasoningStep`
in `src/unnamed/part_004`). -/
structure ReasoningStep where
  stepNumber : Nat
  stage : StageKind
  description : String
  dataCount : Nat
deriving DecidableEq, Repr

/-- Trace result values, as declared for `result` in
`src/unnamed/part_001` line 465. -/
inductive TraceResult where
  | SUCCESS
  | NO_MATCH
  | ERROR
  | PENDING
deriving DecidableEq, Repr

/-- A completed reasoning trace (spec section 4.3; `ReasoningTrace` in
`src/unnamed/part_004`). -/
structure ReasoningTrace where
  ruleId : String
  result : TraceResult
  steps : List ReasoningStep
  inferredCount : Nat
  inferredItems : List Candidate
  completedAt : Option Nat
deriving DecidableEq, Repr

/-- Modelled from the spec: run the rule's filter stages sequentially,
recording the running result count of each stage as a FILTER trace step
(spec section 4.1, stages 2..n). -/
def runFilters (s : Store) : List (Store → Candidate → Bool) → List Candidate → Nat →
    List Candidate × List ReasoningStep
  | [], cs, _ => (cs, [])
  | f :: fs, cs, n =>
    let cs' := cs.filter (f s)
    let rest := runFilters s fs cs' (n + 1)
    (rest.1, { stepNumber := n, stage := .FILTER, description := "apply condition filter",
               dataCount := cs'.length } :: rest.2)

/-- Modelled from the spec: the match and filter stages of the candidate
evaluator, before dedup (spec section 4.1, stages 1..n). -/
def prefilter (r : Rule) (s : Store) : Except QueryError (List Candidate) :=
  (r.matchQuery s).map (fun ms => (runFilters s r.filters ms 2).1)

/-- Modelled from the spec: full candidate evaluation including the
`inverseCheck` dedup stage, which runs in check-only mode as well
(spec section 4.1, Stage Dedup). -/
def evaluate (r : Rule) (s : Store) : Except QueryError (List Candidate) :=
  (prefilter r s).map (fun cs => cs.filter (fun c => !(r.inverseCheck s c)))

/-- Stamp created facts with the InferredFactTag properties
(spec section 3, InferredFactTag; doc guide section 7). -/
def tagProps (now : Nat) (ps : List (String × Value)) : List (String × Value) :=
  ("isInferred", Value.b true) :: ("inferredAt", Value.i (Int.ofNat now)) :: ps

/-- Resolve an action endpoint reference to a node id. -/
def resolveRef (c : Candidate) (createdIds : List Nat) : Ref → Nat
  | .node v => bindOf c v
  | .created i => createdIds.getD i 0

/-- Modelled from the spec: materialize one candidate's action, creating
the specified nodes and edges stamped with the InferredFactTag
(spec section 4.2). -/
def materializeCandidate (now : Nat) (st : Store) (c : Candidate) (a : Action) : Store :=
  let ids := (List.range a.nodes.length).map (fun i => st.nextId + i)
  let newNodes := (a.nodes.zip ids).map (fun p =>
    { id := p.2, labels := "Inferred" :: p.1.labels, props := tagProps now p.1.props })
  let base := st.nextId + a.nodes.length
  let newEdges := (a.edges.zip (List.range a.edges.length)).map (fun p =>
    { id := base + p.2, src := resolveRef c ids p.1.src, tgt := resolveRef c ids p.1.tgt,
      typ := p.1.typ, props := tagProps now p.1.props })
  { nodes := st.nodes ++ newNodes, edges := st.edges ++ newEdges,
    nextId := base + a.edges.length }

/-- Modelled from the spec: materialize every surviving candidate in order
(spec section 4.2). -/
def materializeAll (now : Nat) (r : Rule) (s : Store) (cs : List Candidate) : Store :=
  cs.foldl (fun acc c => materializeCandidate now acc c (r.action c)) s

/-- Result of `apply` (spec section 4.2; `reasoningApi.applyRule` response
shape in `src/unnamed/part_001` lines 397 to 405). -/
structure ApplyResult where
  appliedCount : Nat
  message : String
  inferred : List Candidate
deriving DecidableEq, Repr

/-- The explicit no-new-inferences signal
(doc guide section 4.2, output messages). -/
def noNewInferencesMsg : String := "No new inferences to make"

/-- The success message for a positive number of applied inferences
(doc guide section 4.2, output messages). -/
def appliedMsg (n : Nat) : String := "Applied " ++ toString n ++ " inferences"

/-- The frontend failure message shown when apply fails
(`src/unnamed/part_004`, handleApplyRule catch branch). -/
def failedToApplyMsg : String := "Failed to apply rule"

/-- Modelled from the spec: the Materializer contract
`apply(rule) -> ApplyResult` (spec section 4.2). -/
def applyRule (now : Nat) (r : Rule) (s : Store) : Except QueryError (ApplyResult × Store) :=
  (evaluate r s).map (fun cs =>
    ({ appliedCount := cs.length,
       message := if cs.isEmpty then noNewInferencesMsg else appliedMsg cs.length,
       inferred := cs },
     materializeAll now r s cs))

/-- Result of `check` (spec section 6; `reasoningApi.checkRule` response
shape in `src/unnamed/part_001` lines 387 to 394). -/
structure CheckResult where
  candidates : List Candidate
  count : Nat
deriving DecidableEq, Repr

/-- Modelled from the spec: the check-only preview, which runs the same
evaluation pipeline as apply, dedup included, and mutates nothing
(spec sections 4.1 and 6). -/
def checkRule (r : Rule) (s : Store) : Except QueryError CheckResult :=
  (evaluate r s).map (fun cs => { candidates := cs, count := cs.length })

/-- A node carries the InferredFactTag when its property map records
isInferred = true (doc guide section 7). -/
def isTaggedNode (n : Node) : Bool :=
  n.props.any (fun p => p.1 == "isInferred" && p.2 == Value.b true)

/-- An edge carries the InferredFactTag when its property map records
isInferred = true (doc guide section 7). -/
def isTaggedEdge (e : Edge) : Bool :=
  e.props.any (fun p => p.1 == "isInferred" && p.2 == Value.b true)

/-- Result of `clearInferred` (`reasoningApi.clearInferred` response shape
in `src/unnamed/part_001` lines 437 to 444). -/
structure ClearResult where
  deletedNodes : Nat
  deletedRelationships : Nat
deriving DecidableEq, Repr

/-- Modelled from the spec: the Inference Ledger's bulk retraction, whose
deletion filters strictly on the InferredFactTag (spec section 4.5). -/
def clearInferred (s : Store) : ClearResult × Store :=
  ({ deletedNodes := (s.nodes.filter isTaggedNode).length,
     deletedRelationships := (s.edges.filter isTaggedEdge).length },
   { nodes := s.nodes.filter (fun n => !(isTaggedNode n)),
     edges := s.edges.filter (fun e => !(isTaggedEdge e)),
     nextId := s.nextId })

/-- Inference statistics restricted to tagged facts (spec section 4.5;
`reasoningApi.getStats` response shape in `src/unnamed/part_001`). -/
structure InferredStats where
  totalInferredNodes : Nat
  totalInferredRelationships : Nat
deriving DecidableEq, Repr

/-- Modelled from the spec: `stats()` counts only InferredFactTag-bearing
items (spec section 4.5). -/
def statsInferred (s : Store) : InferredStats :=
  { totalInferredNodes := (s.nodes.filter isTaggedNode).length,
    totalInferredRelationships := (s.edges.filter isTaggedEdge).length }

/-- Modelled from the spec: the Trace Recorder
`trace(rule) -> ReasoningTrace` (spec section 4.3; doc guide section 4.3).
The narrowing pipeline records a MATCH step, one FILTER step per
condition filter, and a CHECK step for the dedup stage; if candidates
survive, an INFERENCE step materializes them; the RESULT step closes the
trace.  ERROR is produced exactly when the store query raised; NO_MATCH
exactly when the narrowing pipeline left zero candidates; SUCCESS
otherwise. -/
def runRuleWithTrace (now : Nat) (r : Rule) (s : Store) : ReasoningTrace × Store :=
  match r.matchQuery s with
  | .error _ =>
    ({ ruleId := r.id, result := .ERROR, steps := [], inferredCount := 0,
       inferredItems := [], completedAt := some now }, s)
  | .ok ms =>
    let mStep : ReasoningStep :=
      { stepNumber := 1, stage := .MATCH, description := "match broad pattern",
        dataCount := ms.length }
    let filtered := runFilters s r.filters ms 2
    let survivors := filtered.1.filter (fun c => !(r.inverseCheck s c))
    let cStep : ReasoningStep :=
      { stepNumber := 2 + r.filters.length, stage := .CHECK,
        description := "drop candidates whose target fact already exists",
        dataCount := survivors.length }
    if survivors.isEmpty then
      ({ ruleId := r.id, result := .NO_MATCH,
         steps := mStep :: filtered.2 ++ [cStep,
           { stepNumber := 3 + r.filters.length, stage := .RESULT,
             description := "no candidates matched", dataCount := 0 }],
         inferredCount := 0, inferredItems := [], completedAt := some now }, s)
    else
      ({ ruleId := r.id, result := .SUCCESS,
         steps := mStep :: filtered.2 ++ [cStep,
           { stepNumber := 3 + r.filters.length, stage := .INFERENCE,
             description := "materialize surviving candidates",
             dataCount := survivors.length },
           { stepNumber := 4 + r.filters.length, stage := .RESULT,
             description := "inference completed", dataCount := survivors.length }],
         inferredCount := survivors.length, inferredItems := survivors,
         completedAt := some now }, materializeAll now r s survivors)

/-- True when the rule's store query succeeded on this store. -/
def queryOk (r : Rule) (s : Store) : Bool :=
  match r.matchQuery s with
  | .ok _ => true
  | .error _ => false

/-- True for the candidate-narrowing stage kinds of the pipeline: the
broad match, the condition filters and the dedup check. -/
def isNarrowStage : StageKind → Bool
  | .MATCH => true
  | .FILTER => true
  | .CHECK => true
  | _ => false

/-- True for the MATCH and FILTER stage kinds only. -/
def isMatchOrFilterStage : StageKind → Bool
  | .MATCH => true
  | .FILTER => true
  | _ => false

/-- True when some candidate-narrowing step of the trace (MATCH, FILTER
or the dedup CHECK step) recorded a running count of zero. -/
def narrowedToZero (t : ReasoningTrace) : Bool :=
  t.steps.any (fun st => isNarrowStage st.stage && st.dataCount == 0)

/-- True when the MATCH step or some FILTER step of the trace recorded a
running count of zero; the dedup CHECK step is not consulted. -/
def matchOrFilterZero (t : ReasoningTrace) : Bool :=
  t.steps.any (fun st => isMatchOrFilterStage st.stage && st.dataCount == 0)

/-- The running count recorded at the trace's final FILTER step, if any. -/
def finalFilterCount (t : ReasoningTrace) : Option Nat :=
  ((t.steps.filter (fun st => st.stage == .FILTER)).getLast?).map (fun st => st.dataCount)

/-- The running count recorded at the trace's dedup CHECK step, the final
candidate-narrowing stage, if any. -/
def dedupStageCount (t : ReasoningTrace) : Option Nat :=
  (t.steps.find? (fun st => st.stage == .CHECK)).map (fun st => st.dataCount)

/-- A graph-consistency violation (spec section 3; `AxiomViolation` in
`src/frontend/src/types/axiom.types.ts`, `ConstraintViolation` in
`src/unnamed/part_001`).  Node ids are numeric in this embedding. -/
structure Violation where
  nodeId : Option Nat
  description : String
  details : List (String × Value)
deriving DecidableEq, Repr

/-- Modelled from the spec: a structural axiom definition with its
read-only check query (spec sections 3 and 4.4; the concrete catalog
lives in the absent `backend/app/services/axiom_service.py`). -/
structure AxiomDef where
  axiomId : String
  name : String
  severity : String
  check : Store → List Violation

/-- Per-axiom check result (`AxiomCheckResult` in
`src/frontend/src/types/axiom.types.ts` lines 20 to 27). -/
structure AxiomCheckResult where
  axiomId : String
  axiomName : String
  passed : Bool
  violationCount : Nat
  violations : List Violation
  checkedAt : Nat
deriving DecidableEq, Repr

/-- Aggregate result of checking every axiom (`AxiomCheckAllResult` in
`src/frontend/src/types/axiom.types.ts` lines 29 to 43). -/
structure AxiomCheckAllResult where
  status : String
  totalAxioms : Nat
  passedAxioms : Nat
  failedAxioms : Nat
  totalViolations : Nat
  results : List AxiomCheckResult
  checkedAt : Nat
deriving DecidableEq, Repr

/-- Modelled from the spec: evaluate one axiom's check query and package
the result (spec section 4.4). -/
def checkAxiom (now : Nat) (a : AxiomDef) (s : Store) : AxiomCheckResult :=
  let vs := a.check s
  { axiomId := a.axiomId, axiomName := a.name, passed := vs.isEmpty,
    violationCount := vs.length, violations := vs, checkedAt := now }

/-- Modelled from the spec: check every axiom independently and aggregate
(spec section 4.4, `checkAllAxioms`). -/
def checkAllAxioms (now : Nat) (axs : List AxiomDef) (s : Store) : AxiomCheckAllResult :=
  let rs := axs.map (fun a => checkAxiom now a s)
  { status := "success", totalAxioms := axs.length,
    passedAxioms := rs.countP (fun res => res.passed),
    failedAxioms := rs.countP (fun res => !res.passed),
    totalViolations := (rs.map (fun res => res.violationCount)).sum,
    results := rs, checkedAt := now }

/-- Modelled from the spec: a data constraint definition with its
read-only check query (spec section 4.4; the concrete catalog lives in
the absent `backend/app/services/constraint_service.py`). -/
structure ConstraintDef where
  constraintId : String
  name : String
  severity : String
  check : Store → List Violation

/-- Per-constraint check result (`ConstraintCheckResult` in
`src/unnamed/part_001` lines 21 to 28). -/
structure ConstraintCheckResult where
  constraintId : String
  constraintName : String
  passed : Bool
  violationCount : Nat
  violations : List Violation
  checkedAt : Nat
deriving DecidableEq, Repr

/-- Aggregate result of validating every constraint
(`ConstraintCheckAllResult` in `src/unnamed/part_001` lines 30 to 44). -/
structure ConstraintCheckAllResult where
  status : String
  totalConstraints : Nat
  passedConstraints : Nat
  failedConstraints : Nat
  totalViolations : Nat
  results : List ConstraintCheckResult
  checkedAt : Nat
deriving DecidableEq, Repr

/-- Modelled from the spec: evaluate one constraint's check query and
package the result (spec section 4.4). -/
def validateConstraint (now : Nat) (c : ConstraintDef) (s : Store) : ConstraintCheckResult :=
  let vs := c.check s
  { constraintId := c.constraintId, constraintName := c.name, passed := vs.isEmpty,
    violationCount := vs.length, violations := vs, checkedAt := now }

/-- Modelled from the spec: validate every constraint independently and
aggregate (spec section 4.4, `validateAllConstraints`). -/
def validateAllConstraints (now : Nat) (cs : List ConstraintDef) (s : Store) :
    ConstraintCheckAllResult :=
  let rs := cs.map (fun c => validateConstraint now c s)
  { status := "success", totalConstraints := cs.length,
    passedConstraints := rs.countP (fun res => res.passed),
    failedConstraints := rs.countP (fun res => !res.passed),
    totalViolations := (rs.map (fun res => res.violationCount)).sum,
    results := rs, checkedAt := now }

/-- True when the store has a node with this id carrying this label. -/
def nodeHasLabel (s : Store) (id : Nat) (lbl : String) : Bool :=
  s.nodes.any (fun n => n.id == id && n.labels.contains lbl)

/-- Modelled from the spec: the inverse-property check of axiom AX003
(`src/ontology/axioms/README.md` lines 26 to 30; spec section 4.4): one
violation per edge of type `aTyp` from X to Y lacking an edge of type
`bTyp` from Y back to X, referencing both endpoints. -/
def checkInverse (aTyp bTyp : String) (s : Store) : List Violation :=
  (s.edges.filter (fun e =>
    e.typ == aTyp &&
    !(s.edges.any (fun e2 => e2.typ == bTyp && e2.src == e.tgt && e2.tgt == e.src)))).map
    (fun e =>
      { nodeId := some e.src,
        description := "missing inverse relationship",
        details := [("sourceId", Value.i (Int.ofNat e.src)),
                    ("targetId", Value.i (Int.ofNat e.tgt))] })

/-- Axiom AX003, the HAS_SENSOR / IS_ATTACHED_TO inverse-property axiom
(`src/ontology/axioms/README.md` lines 26 to 30). -/
def axInverseSensor : AxiomDef :=
  { axiomId := "AX003", name := "Inverse Property", severity := "Medium",
    check := checkInverse "HAS_SENSOR" "IS_ATTACHED_TO" }

/-- Modelled from the spec: Rule 8, inverse-property propagation
(`src/ontology/axioms/README.md` lines 91 to 94; doc guide section 5.8):
for each Equipment to Sensor HAS_SENSOR edge lacking the inverse,
create the IS_ATTACHED_TO edge back. -/
def ruleInverseSensor : Rule :=
  { id := "axiom_inverse_sensor", name := "Inverse Property Propagation",
    category := "axiom",
    matchQuery := fun s =>
      .ok ((s.edges.filter (fun e => e.typ == "HAS_SENSOR")).map
        (fun e => [("e", e.src), ("s", e.tgt)])),
    filters := [fun s c => nodeHasLabel s (bindOf c "e") "Equipment",
                fun s c => nodeHasLabel s (bindOf c "s") "Sensor"],
    inverseCheck := fun s c =>
      s.edges.any (fun e =>
        e.typ == "IS_ATTACHED_TO" && e.src == bindOf c "s" && e.tgt == bindOf c "e"),
    action := fun _ =>
      { nodes := [],
        edges := [{ src := .node "s", tgt := .node "e", typ := "IS_ATTACHED_TO",
                    props := [] }] } }

/-- Look up a property value on a node of the store. -/
def getProp (s : Store) (id : Nat) (k : String) : Option Value :=
  (s.nodes.find? (fun n => n.id == id)).bind
    (fun n => (n.props.find? (fun p => p.1 == k)).map (fun p => p.2))

/-- Modelled from the spec: rule_maintenance_needed (doc guide section
5.1): Equipment with healthScore below 60, not already Critical, and no
pending NEEDS_MAINTENANCE edge, gets a Maintenance node and a
NEEDS_MAINTENANCE edge. -/
def ruleMaintenanceNeeded : Rule :=
  { id := "rule_maintenance_needed", name := "Maintenance Needed",
    category := "maintenance",
    matchQuery := fun s =>
      .ok ((s.nodes.filter (fun n => n.labels.contains "Equipment")).map
        (fun n => [("e", n.id)])),
    filters := [
      fun s c =>
        match getProp s (bindOf c "e") "healthScore" with
        | some (.i v) => decide (v < 60)
        | _ => false,
      fun s c => !(getProp s (bindOf c "e") "healthStatus" == some (.s "Critical"))],
    inverseCheck := fun s c =>
      s.edges.any (fun e => e.typ == "NEEDS_MAINTENANCE" && e.src == bindOf c "e"),
    action := fun _ =>
      { nodes := [{ labels := ["Maintenance"],
                    props := [("type", .s "ConditionBased"), ("priority", .s "High")] }],
        edges := [{ src := .node "e", tgt := .created 0, typ := "NEEDS_MAINTENANCE",
                    props := [] }] } }

/-- Payload of a successful clear-inferred response
(`reasoningApi.clearInferred` in `src/unnamed/part_001` lines 437 to 444). -/
structure ClearData where
  message : String
  deletedNodes : Nat
  deletedRelationships : Nat
deriving DecidableEq, Repr

/-- An API envelope as consumed by the frontend handlers
(`ApiResponse` usage in `src/unnamed/part_004`). -/
structure ClearResp where
  status : String
  data : Option ClearData
deriving DecidableEq, Repr

/-- The slice of the OntologyExplorer component state touched by
`handleClearInferred` (`src/unnamed/part_004`): the reasoning message,
the cached inferred-facts list, the displayed inference statistics
(inferred node and relationship counts) and the running flag. -/
structure UiState where
  isRunningReasoning : Bool
  reasoningMessage : Option String
  inferredFacts : Option (Nat × Nat)
  reasoningStats : Option (Nat × Nat)
deriving DecidableEq, Repr

/-- Requests the handler can issue to the backend. -/
inductive UiCall where
  | clearInferredReq
  | fetchReasoningReq
deriving DecidableEq, Repr

/-- The frontend clear-inferred handler, embedded from
`src/unnamed/part_004` lines 865 to 887: if the confirmation dialog
returns false the handler returns at once; otherwise it issues the
delete request, and on a success response sets the returned message,
drops the cached facts and refreshes the statistics; a thrown request
sets the failure message; the finally block clears the running flag. -/
def handleClearInferred (confirmed : Bool) (resp : Except String ClearResp)
    (st : UiState) : UiState × List UiCall :=
  if !confirmed then (st, [])
  else
    let st1 := { st with isRunningReasoning := true, reasoningMessage := none }
    match resp with
    | .error _ =>
      ({ st1 with
          reasoningMessage := some "Failed to clear inferred facts",
          isRunningReasoning := false }, [.clearInferredReq])
    | .ok r =>
      match r.data with
      | some d =>
        if r.status == "success" then
          ({ st1 with
              reasoningMessage := some d.message,
              inferredFacts := none,
              isRunningReasoning := false }, [.clearInferredReq, .fetchReasoningReq])
        else ({ st1 with isRunningReasoning := false }, [.clearInferredReq])
      | none => ({ st1 with isRunningReasoning := false }, [.clearInferredReq])

/-- Effect of the handler's issued requests on the backing store: only the
delete request mutates it (spec section 4.5); the statistics fetch is
read-only. -/
def applyUiCalls (calls : List UiCall) (s : Store) : Store :=
  calls.foldl (fun acc c =>
    match c with
    | .clearInferredReq => (clearInferred acc).2
    | .fetchReasoningReq => acc) s

/-- The axiom-symmetry scenario store (spec section 8): Equipment node 1
with a HAS_SENSOR edge to Sensor node 2 and no inverse edge. -/
def scenarioStore : Store :=
  { nodes := [{ id := 1, labels := ["Equipment"], props := [("equipmentId", .s "EQ-001")] },
              { id := 2, labels := ["Sensor"], props := [("sensorId", .s "SEN-001")] }],
    edges := [{ id := 10, src := 1, tgt := 2, typ := "HAS_SENSOR", props := [] }],
    nextId := 20 }

/-- A store on which the inverse edge already exists, so the dedup stage
alone empties the candidate set. -/
def dedupOnlyStore : Store :=
  { nodes := [{ id := 1, labels := ["Equipment"], props := [("equipmentId", .s "EQ-001")] },
              { id := 2, labels := ["Sensor"], props := [("sensorId", .s "SEN-001")] }],
    edges := [{ id := 10, src := 1, tgt := 2, typ := "HAS_SENSOR", props := [] },
              { id := 11, src := 2, tgt := 1, typ := "IS_ATTACHED_TO", props := [] }],
    nextId := 20 }

/-- A store with two HAS_SENSOR edges, one of which already has its
inverse: the dedup stage narrows the candidate set from two to one. -/
def partialDedupStore : Store :=
  { nodes := [{ id := 1, labels := ["Equipment"], props := [] },
              { id := 2, labels := ["Sensor"], props := [] },
              { id := 3, labels := ["Equipment"], props := [] },
              { id := 4, labels := ["Sensor"], props := [] }],
    edges := [{ id := 10, src := 1, tgt := 2, typ := "HAS_SENSOR", props := [] },
              { id := 11, src := 3, tgt := 4, typ := "HAS_SENSOR", props := [] },
              { id := 12, src := 2, tgt := 1, typ := "IS_ATTACHED_TO", props := [] }],
    nextId := 20 }

/-- The concrete-scenario store of spec section 8: Equipment RO-001 with
healthScore 55, healthStatus Warning, no pending Maintenance edge. -/
def ro001Store : Store :=
  { nodes := [{ id := 1, labels := ["Equipment"],
                props := [("equipmentId", .s "RO-001"), ("healthScore", .i 55),
                          ("healthStatus", .s "Warning")] }],
    edges := [], nextId := 2 }

/-- The store obtained from `ro001Store` by applying
rule_maintenance_needed once: RO-001 plus its inferred Maintenance node
and NEEDS_MAINTENANCE edge. -/
def maintApplied : Store :=
  materializeAll 0 ruleMaintenanceNeeded ro001Store [[("e", 1)]]

/-- The trace produced by one run-with-trace invocation. -/
def traceOf (now : Nat) (r : Rule) (s : Store) : ReasoningTrace :=
  (runRuleWithTrace now r s).1

/-- Decidable equality for query results, used to evaluate the engine on
concrete inputs. -/
instance {ε α : Type} [DecidableEq ε] [DecidableEq α] : DecidableEq (Except ε α)
  | .ok a, .ok b =>
    if h : a = b then .isTrue (h ▸ rfl) else .isFalse (fun he => h (Except.ok.inj he))
  | .ok _, .error _ => .isFalse (fun he => Except.noConfusion he)
  | .error _, .ok _ => .isFalse (fun he => Except.noConfusion he)
  | .error e, .error f =>
    if h : e = f then .isTrue (h ▸ rfl) else .isFalse (fun he => h (Except.error.inj he))

theorem filter_not_filter {α : Type} (p : α → Bool) (l : List α) :
    (l.filter (fun a => !p a)).filter p = [] := by
  rw [List.filter_eq_nil_iff]
  intro a ha
  rcases List.mem_filter.mp ha with ⟨_, hb⟩
  simp at hb
  simp [hb]

theorem countP_add_countP_not {α : Type} (p : α → Bool) (l : List α) :
    l.countP p + l.countP (fun a => !p a) = l.length := by
  induction l with
  | nil => simp
  | cons a l ih =>
    by_cases h : p a = true <;> simp [List.countP_cons, h, ← ih] <;> omega

theorem runFilters_out_length_le (s : Store) (fs : List (Store → Candidate → Bool)) :
    ∀ (cs : List Candidate) (n : Nat),
      ((runFilters s fs cs n).1).length ≤ cs.length := by
  induction fs with
  | nil => intro cs n; simp [runFilters]
  | cons f fs ih =>
    intro cs n
    calc ((runFilters s (f :: fs) cs n).1).length
        = ((runFilters s fs (cs.filter (f s)) (n + 1)).1).length := by simp [runFilters]
      _ ≤ (cs.filter (f s)).length := ih _ _
      _ ≤ cs.length := List.length_filter_le _ _

theorem runFilters_steps_ge (s : Store) (fs : List (Store → Candidate → Bool)) :
    ∀ (cs : List Candidate) (n : Nat), ∀ st ∈ (runFilters s fs cs n).2,
      ((runFilters s fs cs n).1).length ≤ st.dataCount := by
  induction fs with
  | nil => intro cs n st hst; simp [runFilters] at hst
  | cons f fs ih =>
    intro cs n st hst
    simp only [runFilters, List.mem_cons] at hst
    rcases hst with h | h
    · subst h
      simpa [runFilters] using runFilters_out_length_le s fs (cs.filter (f s)) (n + 1)
    · simpa [runFilters] using ih (cs.filter (f s)) (n + 1) st h

theorem find?_check_skip (fsteps : List ReasoningStep) (c : ReasoningStep)
    (rest : List ReasoningStep)
    (hf : ∀ st ∈ fsteps, (st.stage == StageKind.CHECK) = false)
    (hc : (c.stage == StageKind.CHECK) = true) :
    (fsteps ++ c :: rest).find? (fun st => st.stage == StageKind.CHECK) = some c := by
  induction fsteps with
  | nil =>
    rw [List.nil_append]
    exact List.find?_cons_of_pos _ hc
  | cons a l ih =>
    rw [List.cons_append,
      List.find?_cons_of_neg _ (by simp [hf a (List.mem_cons_self a l)])]
    exact ih (fun st hst => hf st (List.mem_cons_of_mem a hst))

theorem runFilters_steps_stage (s : Store) (fs : List (Store → Candidate → Bool)) :
    ∀ (cs : List Candidate) (n : Nat), ∀ st ∈ (runFilters s fs cs n).2,
      st.stage = StageKind.FILTER := by
  induction fs with
  | nil => intro cs n st hst; simp [runFilters] at hst
  | cons f fs ih =>
    intro cs n st hst
    simp only [runFilters, List.mem_cons] at hst
    rcases hst with h | h
    · subst h; rfl
    · exact ih (cs.filter (f s)) (n + 1) st h

/-- C2: `clearInferred()` deletes exactly the InferredFactTag-carrying
facts and nothing else.  The surviving node and edge lists are precisely
the untagged ones of the pre-state (so every untagged fact present before
is still present after, and every tagged fact is gone), the returned
deletion counts equal the numbers of tagged facts deleted, and `stats()`
on the post-state reports zero inferred nodes and zero inferred
relationships. -/
theorem clearInferred_exact (s : Store) :
    (clearInferred s).2.nodes = s.nodes.filter (fun n => !(isTaggedNode n)) ∧
    (clearInferred s).2.edges = s.edges.filter (fun e => !(isTaggedEdge e)) ∧
    (clearInferred s).1.deletedNodes = (s.nodes.filter isTaggedNode).length ∧
    (clearInferred s).1.deletedRelationships = (s.edges.filter isTaggedEdge).length ∧
    statsInferred (clearInferred s).2 =
      { totalInferredNodes := 0, totalInferredRelationships := 0 } := by
  refine ⟨rfl, rfl, rfl, rfl, ?_⟩
  simp [statsInferred, clearInferred, filter_not_filter]

/-- C3: preview fidelity.  When `check(R)` and `apply(R)` are run
back-to-back on the same unchanged store state, the candidate count
reported by check equals the appliedCount returned by apply. -/
theorem check_apply_count_fidelity (now : Nat) (r : Rule) (s : Store)
    (chk : CheckResult) (res : ApplyResult) (s' : Store)
    (h1 : checkRule r s = .ok chk) (h2 : applyRule now r s = .ok (res, s')) :
    res.appliedCount = chk.count := by
  cases hev : evaluate r s with
  | error e => simp [checkRule, hev, Except.map] at h1
  | ok cs =>
    simp only [checkRule, hev, Except.map, Except.ok.injEq] at h1
    simp only [applyRule, hev, Except.map, Except.ok.injEq, Prod.mk.injEq] at h2
    rw [← h1, ← h2.1]

theorem check_apply_count_fidelity_witness :
    ({ appliedCount := 1, message := appliedMsg 1,
       inferred := [[("e", 1), ("s", 2)]] } : ApplyResult).appliedCount =
    ({ candidates := [[("e", 1), ("s", 2)]], count := 1 } : CheckResult).count :=
  check_apply_count_fidelity 0 ruleInverseSensor scenarioStore
    { candidates := [[("e", 1), ("s", 2)]], count := 1 }
    { appliedCount := 1, message := appliedMsg 1, inferred := [[("e", 1), ("s", 2)]] }
    (materializeAll 0 ruleInverseSensor scenarioStore [[("e", 1), ("s", 2)]])
    (by decide) (by decide)

/-- C4: the check (preview) operation runs the `inverseCheck` dedup stage
exactly as apply does: every candidate in a check result fails the
already-exists predicate, i.e. its target fact is not yet in the store. -/
theorem check_runs_dedup (r : Rule) (s : Store) (chk : CheckResult)
    (h : checkRule r s = .ok chk) :
    chk.candidates.all (fun c => !(r.inverseCheck s c)) = true := by
  cases hp : prefilter r s with
  | error e => simp [checkRule, evaluate, hp, Except.map] at h
  | ok pcs =>
    simp only [checkRule, evaluate, hp, Except.map, Except.ok.injEq] at h
    rw [← h]
    rw [List.all_eq_true]
    intro c hc
    exact (List.mem_filter.mp hc).2

theorem check_runs_dedup_witness :
    ({ candidates := [[("e", 1), ("s", 2)]], count := 1 } : CheckResult).candidates.all
      (fun c => !(ruleInverseSensor.inverseCheck scenarioStore c)) = true :=
  check_runs_dedup ruleInverseSensor scenarioStore
    { candidates := [[("e", 1), ("s", 2)]], count := 1 } (by decide)

/-- C7: when zero candidates survive evaluation, apply completes
successfully (an ok result, not an error), returns appliedCount zero
and the explicit no-new-inferences message, leaves the store untouched,
and that message differs from the failure message, so the outcome is
distinguishable from a failure. -/
theorem apply_zero_candidates_not_error (now : Nat) (r : Rule) (s : Store)
    (h : evaluate r s = .ok []) :
    applyRule now r s =
      .ok ({ appliedCount := 0, message := noNewInferencesMsg, inferred := [] }, s) ∧
    noNewInferencesMsg ≠ failedToApplyMsg := by
  constructor
  · simp [applyRule, h, Except.map, materializeAll]
  · decide

/-- C1: idempotence of apply.  If `apply(R)` on store `s` succeeded and
produced store `s1`, and the rule satisfies its spec contract on that
pair of states — the match and filter stages are unaffected by the facts
the rule itself materialized (`hpre`), `inverseCheck` detects every fact
the first call materialized (`hdedup`), and `inverseCheck` is not
un-done by materialization (`hmono`), per the Rule contract of spec
section 3 and the at-most-once guarantee of section 4.2 — then a second
`apply(R)` with no other store mutations in between returns
appliedCount 0 with the no-new-inferences signal and leaves the store
exactly as it was: no new nodes or edges are created. -/
theorem applyRule_idempotent (now now' : Nat) (r : Rule) (s s1 : Store)
    (res1 : ApplyResult) (pcs : List Candidate)
    (h : applyRule now r s = .ok (res1, s1))
    (hp : prefilter r s = .ok pcs)
    (hpre : prefilter r s1 = prefilter r s)
    (hdedup : res1.inferred.all (fun c => r.inverseCheck s1 c) = true)
    (hmono : pcs.all (fun c => !(r.inverseCheck s c) || r.inverseCheck s1 c) = true) :
    applyRule now' r s1 =
      .ok ({ appliedCount := 0, message := noNewInferencesMsg, inferred := [] }, s1) := by
  cases hev : evaluate r s with
  | error e => simp [applyRule, hev, Except.map] at h
  | ok cs =>
    simp only [applyRule, hev, Except.map, Except.ok.injEq, Prod.mk.injEq] at h
    have hcs : cs = pcs.filter (fun c => !(r.inverseCheck s c)) := by
      simp only [evaluate, hp, Except.map, Except.ok.injEq] at hev
      exact hev.symm
    have hinf : res1.inferred = cs := by rw [← h.1]
    have hnil : pcs.filter (fun c => !(r.inverseCheck s1 c)) = [] := by
      rw [List.filter_eq_nil_iff]
      intro c hc
      simp only [Bool.not_eq_true', Bool.not_eq_false]
      by_cases hcchk : r.inverseCheck s c = true
      · have := (List.all_eq_true.mp hmono) c hc
        simpa [hcchk] using this
      · have hmem : c ∈ cs := by
          rw [hcs]
          exact List.mem_filter.mpr ⟨hc, by simp [hcchk]⟩
        have := (List.all_eq_true.mp hdedup) c (by rw [hinf]; exact hmem)
        exact this
    have hev1 : evaluate r s1 = .ok [] := by
      simp only [evaluate, hpre, hp, Except.map, Except.ok.injEq]
      exact hnil
    simp [applyRule, hev1, Except.map, materializeAll]

theorem applyRule_idempotent_witness :
    applyRule 1 ruleMaintenanceNeeded maintApplied =
      .ok ({ appliedCount := 0, message := noNewInferencesMsg, inferred := [] },
           maintApplied) :=
  applyRule_idempotent 0 1 ruleMaintenanceNeeded ro001Store maintApplied
    { appliedCount := 1, message := appliedMsg 1, inferred := [[("e", 1)]] }
    [[("e", 1)]] (by decide) (by decide) (by decide) (by decide) (by decide)

theorem apply_zero_candidates_not_error_witness :
    applyRule 5 ruleInverseSensor dedupOnlyStore =
      .ok ({ appliedCount := 0, message := noNewInferencesMsg, inferred := [] },
           dedupOnlyStore) ∧
    noNewInferencesMsg ≠ failedToApplyMsg :=
  apply_zero_candidates_not_error 5 ruleInverseSensor dedupOnlyStore (by decide)

/-- C5 (amended): every completed trace carries exactly one of SUCCESS,
NO_MATCH or ERROR — never PENDING or anything else: ERROR exactly when
the store query stage raised; NO_MATCH exactly when some
candidate-narrowing stage of the pipeline (the Match step, a Filter
step, or the Dedup check step) reduced the running candidate count to
zero; SUCCESS otherwise, in which case at least one fact was newly
materialized (inferredCount is positive). -/
theorem trace_result_classification (now : Nat) (r : Rule) (s : Store) :
    (traceOf now r s).completedAt = some now ∧
    (traceOf now r s).result ≠ .PENDING ∧
    ((traceOf now r s).result = .ERROR ↔ queryOk r s = false) ∧
    ((traceOf now r s).result = .NO_MATCH ↔
      (queryOk r s = true ∧ narrowedToZero (traceOf now r s) = true)) ∧
    ((traceOf now r s).result = .SUCCESS ↔
      (queryOk r s = true ∧ narrowedToZero (traceOf now r s) = false)) ∧
    ((traceOf now r s).result = .SUCCESS → 1 ≤ (traceOf now r s).inferredCount) := by
  cases hm : r.matchQuery s with
  | error e =>
    simp [traceOf, runRuleWithTrace, hm, queryOk, narrowedToZero]
  | ok ms =>
    have hq : queryOk r s = true := by simp [queryOk, hm]
    by_cases he :
        ((runFilters s r.filters ms 2).1.filter (fun c => !(r.inverseCheck s c))).isEmpty = true
    · have hnil := List.isEmpty_iff.mp he
      have ht : traceOf now r s =
          { ruleId := r.id, result := .NO_MATCH,
            steps := { stepNumber := 1, stage := .MATCH,
                       description := "match broad pattern", dataCount := ms.length } ::
              (runFilters s r.filters ms 2).2 ++
              [{ stepNumber := 2 + r.filters.length, stage := .CHECK,
                 description := "drop candidates whose target fact already exists",
                 dataCount := 0 },
               { stepNumber := 3 + r.filters.length, stage := .RESULT,
                 description := "no candidates matched", dataCount := 0 }],
            inferredCount := 0, inferredItems := [], completedAt := some now } := by
        simp [traceOf, runRuleWithTrace, hm, he, hnil]
      rw [ht]
      have hnz : narrowedToZero
          { ruleId := r.id, result := .NO_MATCH,
            steps := { stepNumber := 1, stage := .MATCH,
                       description := "match broad pattern", dataCount := ms.length } ::
              (runFilters s r.filters ms 2).2 ++
              [{ stepNumber := 2 + r.filters.length, stage := .CHECK,
                 description := "drop candidates whose target fact already exists",
                 dataCount := 0 },
               { stepNumber := 3 + r.filters.length, stage := .RESULT,
                 description := "no candidates matched", dataCount := 0 }],
            inferredCount := 0, inferredItems := [], completedAt := some now } = true := by
        simp [narrowedToZero, isNarrowStage]
      refine ⟨rfl, fun h => TraceResult.noConfusion h, ?_, ?_, ?_, ?_⟩
      · constructor
        · intro h
          exact TraceResult.noConfusion h
        · intro h
          rw [h] at hq
          exact Bool.noConfusion hq
      · exact ⟨fun _ => ⟨hq, hnz⟩, fun _ => rfl⟩
      · constructor
        · intro h
          exact TraceResult.noConfusion h
        · rintro ⟨-, hf⟩
          rw [hf] at hnz
          exact Bool.noConfusion hnz
      · intro h
        exact TraceResult.noConfusion h
    · have he' : ((runFilters s r.filters ms 2).1.filter
          (fun c => !(r.inverseCheck s c))).isEmpty = false := by
        simpa using he
      have hne : (runFilters s r.filters ms 2).1.filter (fun c => !(r.inverseCheck s c)) ≠ [] := by
        intro hnil
        rw [hnil] at he'
        simp at he'
      have hpos :
          0 < ((runFilters s r.filters ms 2).1.filter (fun c => !(r.inverseCheck s c))).length :=
        List.length_pos.mpr hne
      have hle1 :
          ((runFilters s r.filters ms 2).1.filter (fun c => !(r.inverseCheck s c))).length ≤
            (runFilters s r.filters ms 2).1.length := List.length_filter_le _ _
      have hle2 : (runFilters s r.filters ms 2).1.length ≤ ms.length :=
        runFilters_out_length_le s r.filters ms 2
      have ht : traceOf now r s =
          { ruleId := r.id, result := .SUCCESS,
            steps := { stepNumber := 1, stage := .MATCH,
                       description := "match broad pattern", dataCount := ms.length } ::
              (runFilters s r.filters ms 2).2 ++
              [{ stepNumber := 2 + r.filters.length, stage := .CHECK,
                 description := "drop candidates whose target fact already exists",
                 dataCount := ((runFilters s r.filters ms 2).1.filter
                   (fun c => !(r.inverseCheck s c))).length },
               { stepNumber := 3 + r.filters.length, stage := .INFERENCE,
                 description := "materialize surviving candidates",
                 dataCount := ((runFilters s r.filters ms 2).1.filter
                   (fun c => !(r.inverseCheck s c))).length },
               { stepNumber := 4 + r.filters.length, stage := .RESULT,
                 description := "inference completed",
                 dataCount := ((runFilters s r.filters ms 2).1.filter
                   (fun c => !(r.inverseCheck s c))).length }],
            inferredCount := ((runFilters s r.filters ms 2).1.filter
              (fun c => !(r.inverseCheck s c))).length,
            inferredItems := (runFilters s r.filters ms 2).1.filter
              (fun c => !(r.inverseCheck s c)),
            completedAt := some now } := by
        simp [traceOf, runRuleWithTrace, hm, he']
      rw [ht]
      have hnz : narrowedToZero
          { ruleId := r.id, result := .SUCCESS,
            steps := { stepNumber := 1, stage := .MATCH,
                       description := "match broad pattern", dataCount := ms.length } ::
              (runFilters s r.filters ms 2).2 ++
              [{ stepNumber := 2 + r.filters.length, stage := .CHECK,
                 description := "drop candidates whose target fact already exists",
                 dataCount := ((runFilters s r.filters ms 2).1.filter
                   (fun c => !(r.inverseCheck s c))).length },
               { stepNumber := 3 + r.filters.length, stage := .INFERENCE,
                 description := "materialize surviving candidates",
                 dataCount := ((runFilters s r.filters ms 2).1.filter
                   (fun c => !(r.inverseCheck s c))).length },
               { stepNumber := 4 + r.filters.length, stage := .RESULT,
                 description := "inference completed",
                 dataCount := ((runFilters s r.filters ms 2).1.filter
                   (fun c => !(r.inverseCheck s c))).length }],
            inferredCount := ((runFilters s r.filters ms 2).1.filter
              (fun c => !(r.inverseCheck s c))).length,
            inferredItems := (runFilters s r.filters ms 2).1.filter
              (fun c => !(r.inverseCheck s c)),
            completedAt := some now } = false := by
        rw [← Bool.not_eq_true]
        simp only [narrowedToZero]
        rw [List.any_eq_true]
        rintro ⟨st, hst, hpred⟩
        simp only [List.mem_cons, List.mem_append, List.mem_singleton,
          List.not_mem_nil, or_false] at hst
        rcases hst with (h1 | h2) | h3 | h4 | h5
        · subst h1
          simp [isNarrowStage, -List.length_eq_zero] at hpred
          omega
        · have hstage := runFilters_steps_stage s r.filters ms 2 st h2
          have hge := runFilters_steps_ge s r.filters ms 2 st h2
          rw [hstage] at hpred
          simp [isNarrowStage, -List.length_eq_zero] at hpred
          omega
        · subst h3
          simp [isNarrowStage, -List.length_eq_zero] at hpred
          omega
        · subst h4
          simp [isNarrowStage] at hpred
        · subst h5
          simp [isNarrowStage] at hpred
      refine ⟨rfl, fun h => TraceResult.noConfusion h, ?_, ?_, ?_, ?_⟩
      · constructor
        · intro h
          exact TraceResult.noConfusion h
        · intro h
          rw [h] at hq
          exact Bool.noConfusion hq
      · constructor
        · intro h
          exact TraceResult.noConfusion h
        · rintro ⟨-, htr⟩
          rw [htr] at hnz
          exact Bool.noConfusion hnz
      · exact ⟨fun _ => ⟨hq, hnz⟩, fun _ => rfl⟩
      · intro _
        exact hpos

/-- C5 (counterexample): on a store where the broad match and every
filter stage keep one candidate but the dedup check alone empties the
candidate set, the completed trace has result NO_MATCH while neither the
Match step nor any Filter step recorded a zero count and the store query
did not raise; so the claimed biconditional NO_MATCH iff
match-or-filter-zero fails at this input. -/
theorem trace_result_strict_counterexample :
    (traceOf 0 ruleInverseSensor dedupOnlyStore).result = .NO_MATCH ∧
    matchOrFilterZero (traceOf 0 ruleInverseSensor dedupOnlyStore) = false ∧
    queryOk ruleInverseSensor dedupOnlyStore = true := by
  decide

theorem trace_result_classification_witness :
    (traceOf 0 ruleInverseSensor partialDedupStore).completedAt = some 0 ∧
    (traceOf 0 ruleInverseSensor partialDedupStore).result ≠ .PENDING ∧
    ((traceOf 0 ruleInverseSensor partialDedupStore).result = .ERROR ↔
      queryOk ruleInverseSensor partialDedupStore = false) ∧
    ((traceOf 0 ruleInverseSensor partialDedupStore).result = .NO_MATCH ↔
      (queryOk ruleInverseSensor partialDedupStore = true ∧
        narrowedToZero (traceOf 0 ruleInverseSensor partialDedupStore) = true)) ∧
    ((traceOf 0 ruleInverseSensor partialDedupStore).result = .SUCCESS ↔
      (queryOk ruleInverseSensor partialDedupStore = true ∧
        narrowedToZero (traceOf 0 ruleInverseSensor partialDedupStore) = false)) ∧
    ((traceOf 0 ruleInverseSensor partialDedupStore).result = .SUCCESS →
      1 ≤ (traceOf 0 ruleInverseSensor partialDedupStore).inferredCount) :=
  trace_result_classification 0 ruleInverseSensor partialDedupStore

/-- C6 (amended): on every completed trace, if the result is SUCCESS the
running count recorded at the final candidate-narrowing stage — the
dedup CHECK step — equals the number of inferredItems, and if the result
is NO_MATCH then inferredItems is empty. -/
theorem trace_completeness (now : Nat) (r : Rule) (s : Store) :
    ((traceOf now r s).result = .SUCCESS →
      dedupStageCount (traceOf now r s) =
        some (traceOf now r s).inferredItems.length) ∧
    ((traceOf now r s).result = .NO_MATCH → (traceOf now r s).inferredItems = []) := by
  cases hm : r.matchQuery s with
  | error e =>
    have ht : traceOf now r s =
        { ruleId := r.id, result := .ERROR, steps := [], inferredCount := 0,
          inferredItems := [], completedAt := some now } := by
      simp [traceOf, runRuleWithTrace, hm]
    rw [ht]
    exact ⟨fun h => TraceResult.noConfusion h, fun h => TraceResult.noConfusion h⟩
  | ok ms =>
    by_cases he :
        ((runFilters s r.filters ms 2).1.filter (fun c => !(r.inverseCheck s c))).isEmpty = true
    · have hnil := List.isEmpty_iff.mp he
      have ht : traceOf now r s =
          { ruleId := r.id, result := .NO_MATCH,
            steps := { stepNumber := 1, stage := .MATCH,
                       description := "match broad pattern", dataCount := ms.length } ::
              (runFilters s r.filters ms 2).2 ++
              [{ stepNumber := 2 + r.filters.length, stage := .CHECK,
                 description := "drop candidates whose target fact already exists",
                 dataCount := 0 },
               { stepNumber := 3 + r.filters.length, stage := .RESULT,
                 description := "no candidates matched", dataCount := 0 }],
            inferredCount := 0, inferredItems := [], completedAt := some now } := by
        simp [traceOf, runRuleWithTrace, hm, he, hnil]
      rw [ht]
      exact ⟨fun h => TraceResult.noConfusion h, fun _ => rfl⟩
    · have he' : ((runFilters s r.filters ms 2).1.filter
          (fun c => !(r.inverseCheck s c))).isEmpty = false := by
        simpa using he
      have ht : traceOf now r s =
          { ruleId := r.id, result := .SUCCESS,
            steps := { stepNumber := 1, stage := .MATCH,
                       description := "match broad pattern", dataCount := ms.length } ::
              (runFilters s r.filters ms 2).2 ++
              [{ stepNumber := 2 + r.filters.length, stage := .CHECK,
                 description := "drop candidates whose target fact already exists",
                 dataCount := ((runFilters s r.filters ms 2).1.filter
                   (fun c => !(r.inverseCheck s c))).length },
               { stepNumber := 3 + r.filters.length, stage := .INFERENCE,
                 description := "materialize surviving candidates",
                 dataCount := ((runFilters s r.filters ms 2).1.filter
                   (fun c => !(r.inverseCheck s c))).length },
               { stepNumber := 4 + r.filters.length, stage := .RESULT,
                 description := "inference completed",
                 dataCount := ((runFilters s r.filters ms 2).1.filter
                   (fun c => !(r.inverseCheck s c))).length }],
            inferredCount := ((runFilters s r.filters ms 2).1.filter
              (fun c => !(r.inverseCheck s c))).length,
            inferredItems := (runFilters s r.filters ms 2).1.filter
              (fun c => !(r.inverseCheck s c)),
            completedAt := some now } := by
        simp [traceOf, runRuleWithTrace, hm, he']
      rw [ht]
      refine ⟨fun _ => ?_, fun h => TraceResult.noConfusion h⟩
      simp only [dedupStageCount]
      have hfind := find?_check_skip
        ({ stepNumber := 1, stage := .MATCH,
           description := "match broad pattern", dataCount := ms.length } ::
          (runFilters s r.filters ms 2).2)
        { stepNumber := 2 + r.filters.length, stage := .CHECK,
          description := "drop candidates whose target fact already exists",
          dataCount := ((runFilters s r.filters ms 2).1.filter
            (fun c => !(r.inverseCheck s c))).length }
        [{ stepNumber := 3 + r.filters.length, stage := .INFERENCE,
           description := "materialize surviving candidates",
           dataCount := ((runFilters s r.filters ms 2).1.filter
             (fun c => !(r.inverseCheck s c))).length },
         { stepNumber := 4 + r.filters.length, stage := .RESULT,
           description := "inference completed",
           dataCount := ((runFilters s r.filters ms 2).1.filter
             (fun c => !(r.inverseCheck s c))).length }]
        (fun st hst => by
          rcases List.mem_cons.mp hst with h | h
          · subst h; rfl
          · rw [runFilters_steps_stage s r.filters ms 2 st h]; rfl)
        rfl
      rw [hfind]
      rfl

/-- C6 (counterexample): on a store where the dedup check narrows the
candidate set from two to one, the trace completes with SUCCESS and one
inferred item, but the running count recorded at the final FILTER step
is two; so the claimed equality between the final filter-stage
resultCount and the number of inferredItems fails at this input. -/
theorem trace_completeness_strict_counterexample :
    (traceOf 0 ruleInverseSensor partialDedupStore).result = .SUCCESS ∧
    finalFilterCount (traceOf 0 ruleInverseSensor partialDedupStore) = some 2 ∧
    (traceOf 0 ruleInverseSensor partialDedupStore).inferredItems.length = 1 ∧
    finalFilterCount (traceOf 0 ruleInverseSensor partialDedupStore) ≠
      some (traceOf 0 ruleInverseSensor partialDedupStore).inferredItems.length := by
  decide

theorem trace_completeness_witness :
    ((traceOf 0 ruleInverseSensor partialDedupStore).result = .SUCCESS →
      dedupStageCount (traceOf 0 ruleInverseSensor partialDedupStore) =
        some (traceOf 0 ruleInverseSensor partialDedupStore).inferredItems.length) ∧
    ((traceOf 0 ruleInverseSensor partialDedupStore).result = .NO_MATCH →
      (traceOf 0 ruleInverseSensor partialDedupStore).inferredItems = []) :=
  trace_completeness 0 ruleInverseSensor partialDedupStore

/-- C8: on the scenario store holding an Equipment node (id 1) with a
HAS_SENSOR edge to a Sensor node (id 2) and no IS_ATTACHED_TO edge back,
checking the inverse-property axiom reports exactly one violation, and
that violation references both endpoints (nodeId 1 and target 2); after
applying the inverse-propagation rule to the same store, the same check
reports zero violations and passes. -/
theorem inverse_axiom_scenario :
    (checkAxiom 0 axInverseSensor scenarioStore).violationCount = 1 ∧
    (checkAxiom 0 axInverseSensor scenarioStore).violations =
      [{ nodeId := some 1, description := "missing inverse relationship",
         details := [("sourceId", Value.i 1), ("targetId", Value.i 2)] }] ∧
    (applyRule 0 ruleInverseSensor scenarioStore).map
      (fun p => (checkAxiom 0 axInverseSensor p.2).violationCount) = .ok 0 ∧
    (applyRule 0 ruleInverseSensor scenarioStore).map
      (fun p => (checkAxiom 0 axInverseSensor p.2).passed) = .ok true := by
  decide

/-- C9: in every per-axiom and per-constraint check result produced by
the validator, violationCount equals the length of the violations list
and passed holds exactly when violationCount is zero; in every aggregate,
passed plus failed counts equal the total and totalViolations is the sum
of the per-result violationCounts. -/
theorem check_result_invariants (now : Nat) (axs : List AxiomDef)
    (cons : List ConstraintDef) (s : Store) :
    ((checkAllAxioms now axs s).results.all
      (fun res => res.violationCount == res.violations.length &&
        (res.passed == (res.violationCount == 0)))) = true ∧
    (checkAllAxioms now axs s).passedAxioms + (checkAllAxioms now axs s).failedAxioms =
      (checkAllAxioms now axs s).totalAxioms ∧
    (checkAllAxioms now axs s).totalViolations =
      ((checkAllAxioms now axs s).results.map (fun res => res.violationCount)).sum ∧
    ((validateAllConstraints now cons s).results.all
      (fun res => res.violationCount == res.violations.length &&
        (res.passed == (res.violationCount == 0)))) = true ∧
    (validateAllConstraints now cons s).passedConstraints +
      (validateAllConstraints now cons s).failedConstraints =
      (validateAllConstraints now cons s).totalConstraints ∧
    (validateAllConstraints now cons s).totalViolations =
      ((validateAllConstraints now cons s).results.map (fun res => res.violationCount)).sum := by
  refine ⟨?_, ?_, rfl, ?_, ?_, rfl⟩
  · rw [List.all_eq_true]
    intro res hres
    simp only [checkAllAxioms, List.mem_map] at hres
    rcases hres with ⟨a, _, rfl⟩
    simp only [checkAxiom]
    cases a.check s <;> simp
  · have h := countP_add_countP_not (fun res : AxiomCheckResult => res.passed)
      (axs.map (fun a => checkAxiom now a s))
    simpa [checkAllAxioms] using h
  · rw [List.all_eq_true]
    intro res hres
    simp only [validateAllConstraints, List.mem_map] at hres
    rcases hres with ⟨c, _, rfl⟩
    simp only [validateConstraint]
    cases c.check s <;> simp
  · have h := countP_add_countP_not (fun res : ConstraintCheckResult => res.passed)
      (cons.map (fun c => validateConstraint now c s))
    simpa [validateAllConstraints] using h

/-- C10: the frontend clear-inferred handler performs no deletion unless
the user confirms.  Whenever the confirmation dialog returns false the
handler returns immediately: the component state (message, cached facts,
displayed statistics, running flag) is unchanged and no request is
issued, so the backing store is unchanged too. -/
theorem handleClearInferred_no_confirm_no_delete (resp : Except String ClearResp)
    (st : UiState) (s : Store) :
    handleClearInferred false resp st = (st, []) ∧
    applyUiCalls (handleClearInferred false resp st).2 s = s := by
  constructor <;> simp [handleClearInferred, applyUiCalls]

end Ontology
